import Mathlib

/-!
Shallow embedding of the request-translation layer of gee-gateway
(src/gee_gateway/web/routes.py).  Each Flask endpoint handler is embedded
as a Lean function parametrised by an oracle for the external geospatial
engine operation it calls; the function returns the HTTP outcome together
with a trace of the engine invocation (its exact arguments), so that
claims about which arguments reach the engine are statable.
-/

namespace GeeGateway

/-- JSON values, as produced by request.get_json and consumed by jsonify. -/
inductive JVal where
  | null
  | bool (b : Bool)
  | num (q : ℚ)
  | str (s : String)
  | arr (xs : List JVal)
  | obj (kvs : List (String × JVal))
deriving Repr

/-- Python truthiness of a JSON value: None, False, 0, empty string, empty
array and empty object are falsy, everything else truthy. -/
def truthy : JVal → Bool
  | .null => false
  | .bool b => b
  | .num q => q != 0
  | .str s => s != ""
  | .arr xs => !xs.isEmpty
  | .obj kvs => !kvs.isEmpty

/-- Embedding of the dict.get method with an explicit default: the value
bound to the key when the key is present, the default otherwise. -/
def dget (kvs : List (String × JVal)) (k : String) (d : JVal) : JVal :=
  (kvs.lookup k).getD d

/-- Numeric value of a decimal digit character, none otherwise. -/
def digitVal (c : Char) : Option Nat :=
  if c.isDigit then some (c.toNat - 48) else none

/-- Accumulating value of a string of decimal digits; none as soon as a
non-digit character appears. -/
def digitsValAux : List Char → Nat → Option Nat
  | [], acc => some acc
  | c :: cs, acc =>
    match digitVal c with
    | some d => digitsValAux cs (acc * 10 + d)
    | none => none

/-- Value of a nonempty all-digit character list, none otherwise. -/
def digitsVal (cs : List Char) : Option Nat :=
  if cs.isEmpty then none else digitsValAux cs 0

/-- Model of the Python float builtin applied to a string: an optional sign
followed by decimal digits with an optional decimal point (the forms the
requests at issue use; exponent, infinity and nan spellings are outside this
model).  none models the ValueError float raises on any other string. -/
def parseFloatLit (s : String) : Option ℚ :=
  let cs := s.toList
  let sgn : ℚ := match cs with | '-' :: _ => -1 | _ => 1
  let body : List Char :=
    match cs with
    | '-' :: rest => rest
    | '+' :: rest => rest
    | _ => cs
  let intPart := body.takeWhile (fun c => c.isDigit)
  let rest := body.dropWhile (fun c => c.isDigit)
  match rest with
  | [] => (digitsVal intPart).map (fun n => sgn * n)
  | '.' :: frac =>
    if frac.all (fun c => c.isDigit) && !(intPart.isEmpty && frac.isEmpty) then
      some (sgn * (((digitsValAux intPart 0).getD 0 : ℚ) +
        ((digitsValAux frac 0).getD 0 : ℚ) / (10 : ℚ) ^ frac.length))
    else none
  | _ => none

/-- Model of the Python float builtin on JSON values: numbers coerce to
themselves, booleans to 0 or 1, strings parse as decimal literals; null,
arrays and objects raise TypeError, and non-numeric strings raise
ValueError, both modelled as none. -/
def pyFloat : JVal → Option ℚ
  | .num q => some q
  | .bool b => some (if b then 1 else 0)
  | .str s => parseFloatLit s
  | .null => none
  | .arr _ => none
  | .obj _ => none

/-- Outcome of one external-engine call, as seen by the handler: a normal
return value, a raised GEEException carrying a message, or a raised
exception of any other class. -/
inductive EngineOutcome where
  | ok (v : JVal)
  | gee (msg : String)
  | other
deriving Repr

/-- Outcome of one request: a JSON response body with an HTTP status, or an
exception propagating uncaught out of the handler into the framework. -/
inductive Outcome where
  | resp (body : JVal) (status : Nat)
  | exn
deriving Repr

/-- A request body as the handlers consume it: none models an absent or
null JSON body (request.get_json returning None), some kvs a JSON object
with fields kvs. -/
def Req : Type := Option (List (String × JVal))

/-- The empty JSON object, the handlers initial `values = {}`. -/
def emptyObj : JVal := .obj []

/-- The JSON object `{errMsg: m}` built by every except-GEEException arm. -/
def errMsgObj (m : String) : JVal := .obj [("errMsg", .str m)]

/-- Handler of POST /image (routes.py lines 16-63).  The engine oracle
stands for gee.utils.imageToMapId; the second component records the
arguments of the engine invocation, none when the engine was not called. -/
def image (imageToMapId : JVal → JVal → EngineOutcome) (req : Req) :
    Outcome × Option (JVal × JVal) :=
  match req with
  | none => (.resp emptyObj 200, none)
  | some kvs =>
    if truthy (.obj kvs) then
      let imageName := dget kvs "imageName" .null
      if truthy imageName then
        let visParams := dget kvs "visParams" .null
        match imageToMapId imageName visParams with
        | .ok v => (.resp v 200, some (imageName, visParams))
        | .gee m => (.resp (errMsgObj m) 200, some (imageName, visParams))
        | .other => (.exn, some (imageName, visParams))
      else (.resp emptyObj 200, none)
    else (.resp emptyObj 200, none)

/-- Handler of POST /imageByMosaicCollection (routes.py lines 65-117).
The engine oracle stands for gee.utils.firstImageInMosaicToMapId. -/
def imageByMosaicCollection
    (firstImageInMosaicToMapId : JVal → JVal → JVal → JVal → EngineOutcome)
    (req : Req) : Outcome × Option (JVal × JVal × JVal × JVal) :=
  match req with
  | none => (.resp emptyObj 200, none)
  | some kvs =>
    if truthy (.obj kvs) then
      let collectionName := dget kvs "collectionName" .null
      if truthy collectionName then
        let visParams := dget kvs "visParams" .null
        let dateFrom := dget kvs "dateFrom" .null
        let dateTo := dget kvs "dateTo" .null
        match firstImageInMosaicToMapId collectionName visParams dateFrom dateTo with
        | .ok v => (.resp v 200, some (collectionName, visParams, dateFrom, dateTo))
        | .gee m => (.resp (errMsgObj m) 200, some (collectionName, visParams, dateFrom, dateTo))
        | .other => (.exn, some (collectionName, visParams, dateFrom, dateTo))
      else (.resp emptyObj 200, none)
    else (.resp emptyObj 200, none)

/-- Arguments of one getTimeSeriesByCollectionAndIndex invocation. -/
structure TSCall where
  collectionName : JVal
  indexName : JVal
  scale : ℚ
  geometry : JVal
  dateFrom : JVal
  dateTo : JVal
deriving Repr

/-- Handler of POST /timeSeriesIndex (routes.py lines 119-182).  The engine
oracle stands for gee.utils.getTimeSeriesByCollectionAndIndex.  Note the
code reads the request keys collectionNameTimeSeries, dateFromTimeSeries
and dateToTimeSeries, while its own docstring documents collectionName,
dateFrom and dateTo.  float() on a non-coercible scale raises an exception
that is not a GEEException, hence propagates. -/
def timeSeriesIndex
    (getTimeSeriesByCollectionAndIndex : JVal → JVal → ℚ → JVal → JVal → JVal → EngineOutcome)
    (req : Req) : Outcome × Option TSCall :=
  match req with
  | none => (.resp emptyObj 200, none)
  | some kvs =>
    if truthy (.obj kvs) then
      let collectionName := dget kvs "collectionNameTimeSeries" .null
      let geometry0 := dget kvs "polygon" .null
      let geometry := if truthy geometry0 then geometry0 else dget kvs "geometry" .null
      if truthy collectionName && truthy geometry then
        let indexName := dget kvs "indexName" (.str "NDVI")
        match pyFloat (dget kvs "scale" (.num 30)) with
        | none => (.exn, none)
        | some scale =>
          let dateFrom := dget kvs "dateFromTimeSeries" .null
          let dateTo := dget kvs "dateToTimeSeries" .null
          match getTimeSeriesByCollectionAndIndex collectionName indexName scale geometry dateFrom dateTo with
          | .ok ts =>
            (.resp (.obj [("timeseries", ts)]) 200,
             some ⟨collectionName, indexName, scale, geometry, dateFrom, dateTo⟩)
          | .gee m =>
            (.resp (errMsgObj m) 200,
             some ⟨collectionName, indexName, scale, geometry, dateFrom, dateTo⟩)
          | .other =>
            (.exn, some ⟨collectionName, indexName, scale, geometry, dateFrom, dateTo⟩)
      else (.resp emptyObj 200, none)
    else (.resp emptyObj 200, none)

/-- Arguments of one getTimeSeriesByIndex invocation. -/
structure TS2Call where
  indexName : JVal
  scale : ℚ
  geometry : JVal
deriving Repr

/-- Handler of POST /timeSeriesIndex2 (routes.py lines 184-206).  The
engine oracle stands for gee.utils.getTimeSeriesByIndex. -/
def timeSeriesIndex2
    (getTimeSeriesByIndex : JVal → ℚ → JVal → EngineOutcome)
    (req : Req) : Outcome × Option TS2Call :=
  match req with
  | none => (.resp emptyObj 200, none)
  | some kvs =>
    if truthy (.obj kvs) then
      let geometry0 := dget kvs "polygon" .null
      let geometry := if truthy geometry0 then geometry0 else dget kvs "geometry" .null
      if truthy geometry then
        let indexName := dget kvs "indexName" (.str "NDVI")
        match pyFloat (dget kvs "scale" (.num 30)) with
        | none => (.exn, none)
        | some scale =>
          match getTimeSeriesByIndex indexName scale geometry with
          | .ok ts => (.resp (.obj [("timeseries", ts)]) 200, some ⟨indexName, scale, geometry⟩)
          | .gee m => (.resp (errMsgObj m) 200, some ⟨indexName, scale, geometry⟩)
          | .other => (.exn, some ⟨indexName, scale, geometry⟩)
      else (.resp emptyObj 200, none)
    else (.resp emptyObj 200, none)

/-- Handler of POST /getStats (routes.py lines 208-247).  The engine oracle
stands for gee.utils.getStatistics.  Unlike the other handlers, the code
neither guards `if json:` nor checks any field for presence: with no JSON
body, `json.get` is attribute access on None and raises AttributeError
(uncaught); with any JSON object body the engine is always invoked, absent
fields passed as None. -/
def getStats (getStatistics : JVal → JVal → EngineOutcome) (req : Req) :
    Outcome × Option (JVal × JVal) :=
  match req with
  | none => (.exn, none)
  | some kvs =>
    let paramType := dget kvs "paramType" .null
    let paramValue := dget kvs "paramValue" .null
    match getStatistics paramType paramValue with
    | .ok v => (.resp v 200, some (paramType, paramValue))
    | .gee m => (.resp (errMsgObj m) 200, some (paramType, paramValue))
    | .other => (.exn, some (paramType, paramValue))

/-- Whether a JSON value is an object containing the given key. -/
def hasKey (v : JVal) (k : String) : Bool :=
  match v with
  | .obj kvs => kvs.any (fun kv => kv.1 == k)
  | _ => false

/-- The visParams object of the C7 example request. -/
def visParamsX : JVal :=
  .obj [("min", .num 0), ("max", .num 1), ("bands", .str "B1"), ("gamma", .num 1)]

/-- An engine oracle for imageToMapId returning the mapid and token of the
C7 example. -/
def engineM1T1 : JVal → JVal → EngineOutcome :=
  fun _ _ => .ok (.obj [("mapid", .str "m1"), ("token", .str "t1")])

/-- C7: POST /image with payload imageName "X" and the example visParams,
against an engine whose imageToMapId returns the object with mapid "m1" and
token "t1", invokes imageToMapId with exactly those two fields and relays
the engine return value unchanged as the whole body, status 200. -/
theorem C7_image_example :
    image engineM1T1 (some [("imageName", .str "X"), ("visParams", visParamsX)]) =
      (.resp (.obj [("mapid", .str "m1"), ("token", .str "t1")]) 200,
       some (.str "X", visParamsX)) := rfl

/-- An engine oracle for getTimeSeriesByCollectionAndIndex returning an
empty timeseries whatever its arguments. -/
def engineTSEmpty : JVal → JVal → ℚ → JVal → JVal → JVal → EngineOutcome :=
  fun _ _ _ _ _ _ => .ok (.arr [])

/-- C3: a POST /timeSeriesIndex payload carrying collectionName, geometry,
dateFrom and dateTo exactly as the handler docstring documents them yields
the empty body without any engine invocation, because the code reads the
keys collectionNameTimeSeries, dateFromTimeSeries and dateToTimeSeries
instead; the same request with the collection under collectionNameTimeSeries
reaches the engine but still with null dates, the dateFrom and dateTo fields
being ignored. -/
theorem C3_docstring_fields_ignored :
    timeSeriesIndex engineTSEmpty
        (some [("collectionName", .str "c1"),
               ("geometry", .arr [.num 0, .num 0]),
               ("dateFrom", .str "2020-01-01"),
               ("dateTo", .str "2020-02-01")]) =
      (.resp emptyObj 200, none) ∧
    timeSeriesIndex engineTSEmpty
        (some [("collectionNameTimeSeries", .str "c1"),
               ("geometry", .arr [.num 0, .num 0]),
               ("dateFrom", .str "2020-01-01"),
               ("dateTo", .str "2020-02-01")]) =
      (.resp (.obj [("timeseries", .arr [])]) 200,
       some ⟨.str "c1", .str "NDVI", 30, .arr [.num 0, .num 0], .null, .null⟩) :=
  ⟨rfl, rfl⟩

/-- An engine oracle for getStatistics returning a fixed statistics object
whatever its arguments. -/
def enginePop0 : JVal → JVal → EngineOutcome :=
  fun _ _ => .ok (.obj [("pop", .num 0)])

/-- C1 counterexample: POST /getStats with the empty JSON object as payload
(paramType, its identifying field, missing) does invoke the engine, with
null for both arguments, and the body is the engine result rather than the
empty object; so the claimed property fails at the /getStats endpoint. -/
theorem C1_getStats_counterexample :
    (getStats enginePop0 (some [])).2 = some (.null, .null) ∧
    getStats enginePop0 (some []) ≠ (.resp emptyObj 200, none) := by
  refine ⟨rfl, ?_⟩
  intro h
  have h1 : (getStats enginePop0 (some [])).1 = .resp emptyObj 200 := by rw [h]
  simp [getStats, enginePop0, dget, emptyObj] at h1

/-- C1 (amended): for /image, /imageByMosaicCollection, /timeSeriesIndex
and /timeSeriesIndex2, a payload missing its primary identifying field
yields the empty body with status 200 and the engine is not invoked; for
/getStats no such guard exists and the engine is invoked anyway, with null
standing in for the missing fields. -/
theorem C1_missing_field_noop :
    (∀ eng kvs, kvs.lookup "imageName" = none →
        image eng (some kvs) = (.resp emptyObj 200, none)) ∧
    (∀ eng kvs, kvs.lookup "collectionName" = none →
        imageByMosaicCollection eng (some kvs) = (.resp emptyObj 200, none)) ∧
    (∀ eng kvs, kvs.lookup "collectionNameTimeSeries" = none →
        timeSeriesIndex eng (some kvs) = (.resp emptyObj 200, none)) ∧
    (∀ eng kvs, kvs.lookup "polygon" = none → kvs.lookup "geometry" = none →
        timeSeriesIndex2 eng (some kvs) = (.resp emptyObj 200, none)) ∧
    (∀ eng kvs, kvs.lookup "paramType" = none → kvs.lookup "paramValue" = none →
        (getStats eng (some kvs)).2 = some (.null, .null)) := by
  refine ⟨?_, ?_, ?_, ?_, ?_⟩
  · intro eng kvs h
    simp [image, dget, h, truthy]
  · intro eng kvs h
    simp [imageByMosaicCollection, dget, h, truthy]
  · intro eng kvs h
    simp [timeSeriesIndex, dget, h, truthy]
  · intro eng kvs h1 h2
    simp [timeSeriesIndex2, dget, h1, h2, truthy]
  · intro eng kvs h1 h2
    cases h : eng .null .null <;> simp [getStats, dget, h1, h2, h]

/-- C1 witness: concrete instances of the amended claim, one per endpoint,
at the empty-object payload. -/
theorem C1_missing_field_noop_witness :
    image engineM1T1 (some []) = (.resp emptyObj 200, none) ∧
    timeSeriesIndex engineTSEmpty (some []) = (.resp emptyObj 200, none) ∧
    (getStats enginePop0 (some [])).2 = some (.null, .null) :=
  ⟨C1_missing_field_noop.1 engineM1T1 [] rfl,
   C1_missing_field_noop.2.2.1 engineTSEmpty [] rfl,
   C1_missing_field_noop.2.2.2.2 enginePop0 [] rfl rfl⟩

/-- C2: for every endpoint, whenever the engine operation is invoked and
raises GEEException with message m, the response is exactly the object with
the single key errMsg bound to m, with status 200; whatever success payload
had been under construction is discarded. -/
theorem C2_gee_errMsg :
    (∀ m req, (image (fun _ _ => .gee m) req).2.isSome = true →
        (image (fun _ _ => .gee m) req).1 = .resp (errMsgObj m) 200) ∧
    (∀ m req, (imageByMosaicCollection (fun _ _ _ _ => .gee m) req).2.isSome = true →
        (imageByMosaicCollection (fun _ _ _ _ => .gee m) req).1 = .resp (errMsgObj m) 200) ∧
    (∀ m req, (timeSeriesIndex (fun _ _ _ _ _ _ => .gee m) req).2.isSome = true →
        (timeSeriesIndex (fun _ _ _ _ _ _ => .gee m) req).1 = .resp (errMsgObj m) 200) ∧
    (∀ m req, (timeSeriesIndex2 (fun _ _ _ => .gee m) req).2.isSome = true →
        (timeSeriesIndex2 (fun _ _ _ => .gee m) req).1 = .resp (errMsgObj m) 200) ∧
    (∀ m req, (getStats (fun _ _ => .gee m) req).2.isSome = true →
        (getStats (fun _ _ => .gee m) req).1 = .resp (errMsgObj m) 200) := by
  refine ⟨?_, ?_, ?_, ?_, ?_⟩ <;> intro m req <;> cases req with
  | none => simp [image, imageByMosaicCollection, timeSeriesIndex, timeSeriesIndex2, getStats]
  | some kvs =>
    first
    | (simp only [image]; split_ifs <;> simp)
    | (simp only [imageByMosaicCollection]; split_ifs <;> simp)
    | (simp only [timeSeriesIndex]; split_ifs <;> (try split) <;> simp)
    | (simp only [timeSeriesIndex2]; split_ifs <;> (try split) <;> simp)
    | simp [getStats]

/-- C2 witness: the spec example, POST /getStats with paramType basin and a
polygon paramValue against an engine raising GEEException "bad polygon",
answers errMsg "bad polygon" with status 200. -/
theorem C2_gee_errMsg_witness :
    (getStats (fun _ _ => .gee "bad polygon")
        (some [("paramType", .str "basin"),
               ("paramValue", .arr [.arr [.num 0, .num 0], .arr [.num 1, .num 1]])])).1 =
      .resp (errMsgObj "bad polygon") 200 :=
  C2_gee_errMsg.2.2.2.2 "bad polygon"
    (some [("paramType", .str "basin"),
           ("paramValue", .arr [.arr [.num 0, .num 0], .arr [.num 1, .num 1]])]) rfl

/-- C4: each handler catches only GEEException; when the invoked engine
operation raises an exception of any other class, no errMsg response is
built and the exception propagates uncaught out of the handler. -/
theorem C4_non_gee_propagates :
    (∀ req, (image (fun _ _ => .other) req).2.isSome = true →
        (image (fun _ _ => .other) req).1 = .exn) ∧
    (∀ req, (imageByMosaicCollection (fun _ _ _ _ => .other) req).2.isSome = true →
        (imageByMosaicCollection (fun _ _ _ _ => .other) req).1 = .exn) ∧
    (∀ req, (timeSeriesIndex (fun _ _ _ _ _ _ => .other) req).2.isSome = true →
        (timeSeriesIndex (fun _ _ _ _ _ _ => .other) req).1 = .exn) ∧
    (∀ req, (timeSeriesIndex2 (fun _ _ _ => .other) req).2.isSome = true →
        (timeSeriesIndex2 (fun _ _ _ => .other) req).1 = .exn) ∧
    (∀ req, (getStats (fun _ _ => .other) req).2.isSome = true →
        (getStats (fun _ _ => .other) req).1 = .exn) := by
  refine ⟨?_, ?_, ?_, ?_, ?_⟩ <;> intro req <;> cases req with
  | none => simp [image, imageByMosaicCollection, timeSeriesIndex, timeSeriesIndex2, getStats]
  | some kvs =>
    first
    | (simp only [image]; split_ifs <;> simp)
    | (simp only [imageByMosaicCollection]; split_ifs <;> simp)
    | (simp only [timeSeriesIndex]; split_ifs <;> (try split) <;> simp)
    | (simp only [timeSeriesIndex2]; split_ifs <;> (try split) <;> simp)
    | simp [getStats]

/-- C4 witness: POST /image with imageName present, against an engine whose
imageToMapId raises a non-GEE exception, ends in an uncaught exception. -/
theorem C4_non_gee_propagates_witness :
    (image (fun _ _ => .other) (some [("imageName", .str "X")])).1 = .exn :=
  C4_non_gee_propagates.1 (some [("imageName", .str "X")]) rfl

/-- Inversion for timeSeriesIndex: when the trace records an engine call,
its arguments are exactly the parsed and defaulted request fields. -/
theorem timeSeriesIndex_call_inv (eng : JVal → JVal → ℚ → JVal → JVal → JVal → EngineOutcome)
    (kvs : List (String × JVal)) (c : TSCall)
    (h : (timeSeriesIndex eng (some kvs)).2 = some c) :
    c.collectionName = dget kvs "collectionNameTimeSeries" .null ∧
    c.indexName = dget kvs "indexName" (.str "NDVI") ∧
    pyFloat (dget kvs "scale" (.num 30)) = some c.scale ∧
    c.geometry = (if truthy (dget kvs "polygon" .null) then dget kvs "polygon" .null
                  else dget kvs "geometry" .null) ∧
    c.dateFrom = dget kvs "dateFromTimeSeries" .null ∧
    c.dateTo = dget kvs "dateToTimeSeries" .null := by
  simp only [timeSeriesIndex] at h
  split_ifs at h
  all_goals (
    split at h
    · exact absurd h (by simp)
    · rename_i scale hps
      split at h <;>
        (simp at h; subst h;
         exact ⟨rfl, rfl, by simpa using hps, by split <;> simp_all, rfl, rfl⟩))

/-- Inversion for timeSeriesIndex2: when the trace records an engine call,
its arguments are exactly the parsed and defaulted request fields. -/
theorem timeSeriesIndex2_call_inv (eng : JVal → ℚ → JVal → EngineOutcome)
    (kvs : List (String × JVal)) (c : TS2Call)
    (h : (timeSeriesIndex2 eng (some kvs)).2 = some c) :
    c.indexName = dget kvs "indexName" (.str "NDVI") ∧
    pyFloat (dget kvs "scale" (.num 30)) = some c.scale ∧
    c.geometry = (if truthy (dget kvs "polygon" .null) then dget kvs "polygon" .null
                  else dget kvs "geometry" .null) := by
  simp only [timeSeriesIndex2] at h
  split_ifs at h
  all_goals (
    split at h
    · exact absurd h (by simp)
    · rename_i scale hps
      split at h <;>
        (simp at h; subst h;
         exact ⟨rfl, by simpa using hps, by split <;> simp_all⟩))

/-- C5: in /timeSeriesIndex and /timeSeriesIndex2, whenever the engine is
invoked on a request that omits indexName, the indexName argument is the
string NDVI, and whenever the request omits scale, the scale argument is
30. -/
theorem C5_defaults :
    (∀ eng kvs c, (timeSeriesIndex eng (some kvs)).2 = some c →
        (kvs.lookup "indexName" = none → c.indexName = .str "NDVI") ∧
        (kvs.lookup "scale" = none → c.scale = 30)) ∧
    (∀ eng kvs c, (timeSeriesIndex2 eng (some kvs)).2 = some c →
        (kvs.lookup "indexName" = none → c.indexName = .str "NDVI") ∧
        (kvs.lookup "scale" = none → c.scale = 30)) := by
  constructor
  · intro eng kvs c h
    obtain ⟨-, hidx, hsc, -, -, -⟩ := timeSeriesIndex_call_inv eng kvs c h
    refine ⟨fun hl => ?_, fun hl => ?_⟩
    · rw [hidx]; simp [dget, hl]
    · simp only [dget, hl, Option.getD_none] at hsc
      simp [pyFloat] at hsc
      exact hsc.symm
  · intro eng kvs c h
    obtain ⟨hidx, hsc, -⟩ := timeSeriesIndex2_call_inv eng kvs c h
    refine ⟨fun hl => ?_, fun hl => ?_⟩
    · rw [hidx]; simp [dget, hl]
    · simp only [dget, hl, Option.getD_none] at hsc
      simp [pyFloat] at hsc
      exact hsc.symm

/-- C5 witness: a /timeSeriesIndex request with only the collection and
geometry fields reaches the engine with indexName NDVI and scale 30. -/
theorem C5_defaults_witness :
    (TSCall.mk (.str "c1") (.str "NDVI") 30 (.arr [.num 0]) .null .null).indexName =
        .str "NDVI" ∧
    (TSCall.mk (.str "c1") (.str "NDVI") 30 (.arr [.num 0]) .null .null).scale = 30 :=
  ⟨(C5_defaults.1 engineTSEmpty
      [("collectionNameTimeSeries", .str "c1"), ("geometry", .arr [.num 0])]
      (TSCall.mk (.str "c1") (.str "NDVI") 30 (.arr [.num 0]) .null .null) rfl).1 rfl,
   (C5_defaults.1 engineTSEmpty
      [("collectionNameTimeSeries", .str "c1"), ("geometry", .arr [.num 0])]
      (TSCall.mk (.str "c1") (.str "NDVI") 30 (.arr [.num 0]) .null .null) rfl).2 rfl⟩

/-- Truthiness of a nonempty JSON object, the `if json:` guard on any
request with at least one field. -/
theorem truthy_obj_cons (a : String × JVal) (as : List (String × JVal)) :
    truthy (.obj (a :: as)) = true := rfl

/-- C9: in /timeSeriesIndex and /timeSeriesIndex2 the polygon field takes
precedence: when the request carries a truthy polygon value, that value is
the geometry argument of any engine invocation; the geometry field is
consulted only when polygon is absent or falsy. -/
theorem C9_polygon_precedence :
    (∀ eng kvs p c, kvs.lookup "polygon" = some p → truthy p = true →
        (timeSeriesIndex eng (some kvs)).2 = some c → c.geometry = p) ∧
    (∀ eng kvs c, truthy (dget kvs "polygon" .null) = false →
        (timeSeriesIndex eng (some kvs)).2 = some c →
        c.geometry = dget kvs "geometry" .null) ∧
    (∀ eng kvs p c, kvs.lookup "polygon" = some p → truthy p = true →
        (timeSeriesIndex2 eng (some kvs)).2 = some c → c.geometry = p) ∧
    (∀ eng kvs c, truthy (dget kvs "polygon" .null) = false →
        (timeSeriesIndex2 eng (some kvs)).2 = some c →
        c.geometry = dget kvs "geometry" .null) := by
  refine ⟨?_, ?_, ?_, ?_⟩
  · intro eng kvs p c hl hp h
    obtain ⟨-, -, -, hgeo, -, -⟩ := timeSeriesIndex_call_inv eng kvs c h
    rw [hgeo]; simp [dget, hl, hp]
  · intro eng kvs c hp h
    obtain ⟨-, -, -, hgeo, -, -⟩ := timeSeriesIndex_call_inv eng kvs c h
    rw [hgeo]; simp [hp]
  · intro eng kvs p c hl hp h
    obtain ⟨-, -, hgeo⟩ := timeSeriesIndex2_call_inv eng kvs c h
    rw [hgeo]; simp [dget, hl, hp]
  · intro eng kvs c hp h
    obtain ⟨-, -, hgeo⟩ := timeSeriesIndex2_call_inv eng kvs c h
    rw [hgeo]; simp [hp]

/-- C9 witness: a /timeSeriesIndex request carrying polygon [1] and
geometry [2] reaches the engine with geometry argument [1]. -/
theorem C9_polygon_precedence_witness :
    (TSCall.mk (.str "c1") (.str "NDVI") 30 (.arr [.num 1]) .null .null).geometry =
      .arr [.num 1] :=
  C9_polygon_precedence.1 engineTSEmpty
    [("polygon", .arr [.num 1]), ("geometry", .arr [.num 2]),
     ("collectionNameTimeSeries", .str "c1")]
    (.arr [.num 1])
    (TSCall.mk (.str "c1") (.str "NDVI") 30 (.arr [.num 1]) .null .null)
    rfl rfl rfl

/-- C10: in /timeSeriesIndex and /timeSeriesIndex2 the scale argument of
every engine invocation is the float coercion of the request scale value
(30 when absent), so numeric strings are accepted and the engine always
receives a number; and when the guard fields are present but the scale
value is not float-coercible, the handler ends in an uncaught exception
rather than an errMsg response, the engine never being invoked. -/
theorem C10_scale_float_coercion :
    (∀ eng kvs c, (timeSeriesIndex eng (some kvs)).2 = some c →
        pyFloat (dget kvs "scale" (.num 30)) = some c.scale) ∧
    (∀ eng kvs, truthy (dget kvs "collectionNameTimeSeries" .null) = true →
        truthy (if truthy (dget kvs "polygon" .null) then dget kvs "polygon" .null
                else dget kvs "geometry" .null) = true →
        pyFloat (dget kvs "scale" (.num 30)) = none →
        timeSeriesIndex eng (some kvs) = (.exn, none)) ∧
    (∀ eng kvs c, (timeSeriesIndex2 eng (some kvs)).2 = some c →
        pyFloat (dget kvs "scale" (.num 30)) = some c.scale) ∧
    (∀ eng kvs, truthy (if truthy (dget kvs "polygon" .null) then dget kvs "polygon" .null
                else dget kvs "geometry" .null) = true →
        pyFloat (dget kvs "scale" (.num 30)) = none →
        timeSeriesIndex2 eng (some kvs) = (.exn, none)) := by
  refine ⟨?_, ?_, ?_, ?_⟩
  · intro eng kvs c h
    exact (timeSeriesIndex_call_inv eng kvs c h).2.2.1
  · intro eng kvs hc hg hf
    cases kvs with
    | nil => simp [dget, truthy] at hc
    | cons a as => simp [timeSeriesIndex, truthy_obj_cons, hc, hg, hf]
  · intro eng kvs c h
    exact (timeSeriesIndex2_call_inv eng kvs c h).2.1
  · intro eng kvs hg hf
    cases kvs with
    | nil => simp [dget, truthy] at hg
    | cons a as => simp [timeSeriesIndex2, truthy_obj_cons, hg, hf]

/-- The float coercion of the string 30 is the number 30. -/
theorem pyFloat_str_30 : pyFloat (.str "30") = some 30 := by
  simp +decide [pyFloat, parseFloatLit, digitsVal, digitsValAux, digitVal]

/-- C10 witness: with scale the string 30 the engine receives the number 30,
and with scale the string x the handler ends in an uncaught exception with
no engine call. -/
theorem C10_scale_float_coercion_witness :
    pyFloat (dget [("collectionNameTimeSeries", .str "c1"), ("geometry", .arr [.num 0]),
                   ("scale", .str "30")] "scale" (.num 30)) =
      some (TSCall.mk (.str "c1") (.str "NDVI") 30 (.arr [.num 0]) .null .null).scale ∧
    timeSeriesIndex engineTSEmpty
        (some [("collectionNameTimeSeries", .str "c1"), ("geometry", .arr [.num 0]),
               ("scale", .str "x")]) = (.exn, none) :=
  ⟨C10_scale_float_coercion.1 engineTSEmpty
      [("collectionNameTimeSeries", .str "c1"), ("geometry", .arr [.num 0]),
       ("scale", .str "30")]
      (TSCall.mk (.str "c1") (.str "NDVI") 30 (.arr [.num 0]) .null .null)
      (by simp +decide [timeSeriesIndex, dget, engineTSEmpty, truthy, pyFloat_str_30,
            List.lookup]),
   C10_scale_float_coercion.2.1 engineTSEmpty
      [("collectionNameTimeSeries", .str "c1"), ("geometry", .arr [.num 0]),
       ("scale", .str "x")] rfl rfl rfl⟩

/-- Truthiness of null, the falsy default of the field lookups. -/
theorem truthy_null : truthy .null = false := rfl

/-- C6: /timeSeriesIndex treats the legacy polygon field and the geometry
field interchangeably: a request carrying the geometry value under either
key (and no value under the other) produces the same outcome and the same
engine invocation; and when both keys are absent the body is the empty
object with status 200, the engine not being invoked. -/
theorem C6_polygon_geometry_interchangeable :
    (∀ (eng : JVal → JVal → ℚ → JVal → JVal → JVal → EngineOutcome) g rest,
        rest.lookup "polygon" = none → rest.lookup "geometry" = none →
        timeSeriesIndex eng (some (("polygon", g) :: rest)) =
          timeSeriesIndex eng (some (("geometry", g) :: rest))) ∧
    (∀ (eng : JVal → JVal → ℚ → JVal → JVal → JVal → EngineOutcome) kvs,
        kvs.lookup "polygon" = none → kvs.lookup "geometry" = none →
        timeSeriesIndex eng (some kvs) = (.resp emptyObj 200, none)) := by
  constructor
  · intro eng g rest h1 h2
    by_cases ht : truthy g = true
    · simp [timeSeriesIndex, dget, List.lookup, h1, h2, ht, truthy_obj_cons, truthy_null]
    · simp [timeSeriesIndex, dget, List.lookup, h1, h2, ht, truthy_obj_cons, truthy_null]
  · intro eng kvs h1 h2
    simp [timeSeriesIndex, dget, h1, h2, truthy_null]

/-- C6 witness: with the collection field set, supplying the polygon [0]
under the key polygon and supplying it under the key geometry give the same
result, and a request with neither key answers the empty body. -/
theorem C6_polygon_geometry_interchangeable_witness :
    timeSeriesIndex engineTSEmpty
        (some [("polygon", .arr [.num 0]), ("collectionNameTimeSeries", .str "c1")]) =
      timeSeriesIndex engineTSEmpty
        (some [("geometry", .arr [.num 0]), ("collectionNameTimeSeries", .str "c1")]) ∧
    timeSeriesIndex engineTSEmpty (some [("collectionNameTimeSeries", .str "c1")]) =
      (.resp emptyObj 200, none) :=
  ⟨C6_polygon_geometry_interchangeable.1 engineTSEmpty (.arr [.num 0])
      [("collectionNameTimeSeries", .str "c1")] rfl rfl,
   C6_polygon_geometry_interchangeable.2 engineTSEmpty
      [("collectionNameTimeSeries", .str "c1")] rfl rfl⟩

/-- C8: every response body is exactly one of a success payload free of the
errMsg key and the one-key errMsg object; for the endpoints that relay the
engine return value verbatim this holds provided the engine keeps to its
documented contract of never returning an errMsg field, and for the two
timeseries endpoints it holds unconditionally. -/
theorem C8_result_xor_error :
    (∀ (eng : JVal → JVal → EngineOutcome) req,
        (∀ a b v, eng a b = .ok v → hasKey v "errMsg" = false) →
        ∀ b s, (image eng req).1 = .resp b s →
          hasKey b "errMsg" = false ∨ ∃ m, b = errMsgObj m) ∧
    (∀ (eng : JVal → JVal → JVal → JVal → EngineOutcome) req,
        (∀ a b c d v, eng a b c d = .ok v → hasKey v "errMsg" = false) →
        ∀ b s, (imageByMosaicCollection eng req).1 = .resp b s →
          hasKey b "errMsg" = false ∨ ∃ m, b = errMsgObj m) ∧
    (∀ (eng : JVal → JVal → ℚ → JVal → JVal → JVal → EngineOutcome) req b s,
        (timeSeriesIndex eng req).1 = .resp b s →
          hasKey b "errMsg" = false ∨ ∃ m, b = errMsgObj m) ∧
    (∀ (eng : JVal → ℚ → JVal → EngineOutcome) req b s,
        (timeSeriesIndex2 eng req).1 = .resp b s →
          hasKey b "errMsg" = false ∨ ∃ m, b = errMsgObj m) ∧
    (∀ (eng : JVal → JVal → EngineOutcome) req,
        (∀ a b v, eng a b = .ok v → hasKey v "errMsg" = false) →
        ∀ b s, (getStats eng req).1 = .resp b s →
          hasKey b "errMsg" = false ∨ ∃ m, b = errMsgObj m) := by
  refine ⟨?_, ?_, ?_, ?_, ?_⟩
  · intro eng req hok b s h
    cases req with
    | none => simp [image] at h; left; rw [← h.1]; rfl
    | some kvs =>
      simp only [image] at h
      split_ifs at h
      · split at h
        · rename_i v hv
          simp at h; left; rw [← h.1]; exact hok _ _ v hv
        · rename_i m hm
          right; simp at h; exact ⟨m, h.1.symm⟩
        · simp at h
      · simp at h; left; rw [← h.1]; rfl
      · simp at h; left; rw [← h.1]; rfl
  · intro eng req hok b s h
    cases req with
    | none => simp [imageByMosaicCollection] at h; left; rw [← h.1]; rfl
    | some kvs =>
      simp only [imageByMosaicCollection] at h
      split_ifs at h
      · split at h
        · rename_i v hv
          simp at h; left; rw [← h.1]; exact hok _ _ _ _ v hv
        · rename_i m hm
          right; simp at h; exact ⟨m, h.1.symm⟩
        · simp at h
      · simp at h; left; rw [← h.1]; rfl
      · simp at h; left; rw [← h.1]; rfl
  · intro eng req b s h
    cases req with
    | none => simp [timeSeriesIndex] at h; left; rw [← h.1]; rfl
    | some kvs =>
      simp only [timeSeriesIndex] at h
      split_ifs at h
      all_goals first
      | (simp at h; left; rw [← h.1]; rfl)
      | (split at h
         · simp at h
         · split at h
           · rename_i ts hts
             simp at h; left; rw [← h.1]; rfl
           · rename_i m hm
             right; simp at h; exact ⟨m, h.1.symm⟩
           · simp at h)
  · intro eng req b s h
    cases req with
    | none => simp [timeSeriesIndex2] at h; left; rw [← h.1]; rfl
    | some kvs =>
      simp only [timeSeriesIndex2] at h
      split_ifs at h
      all_goals first
      | (simp at h; left; rw [← h.1]; rfl)
      | (split at h
         · simp at h
         · split at h
           · rename_i ts hts
             simp at h; left; rw [← h.1]; rfl
           · rename_i m hm
             right; simp at h; exact ⟨m, h.1.symm⟩
           · simp at h)
  · intro eng req hok b s h
    cases req with
    | none => simp [getStats] at h
    | some kvs =>
      simp only [getStats] at h
      split at h
      · rename_i v hv
        simp at h; left; rw [← h.1]; exact hok _ _ v hv
      · rename_i m hm
        right; simp at h; exact ⟨m, h.1.symm⟩
      · simp at h

/-- C8 witness: the /image success body of the C7 example has no errMsg
key, an instance of the exactly-one-of-result-and-error invariant. -/
theorem C8_result_xor_error_witness :
    hasKey (.obj [("mapid", .str "m1"), ("token", .str "t1")]) "errMsg" = false ∨
      ∃ m, JVal.obj [("mapid", .str "m1"), ("token", .str "t1")] = errMsgObj m :=
  C8_result_xor_error.1 engineM1T1 (some [("imageName", .str "X")])
    (fun _ _ v hv => by cases hv; rfl)
    (.obj [("mapid", .str "m1"), ("token", .str "t1")]) 200 rfl

end GeeGateway

